import Mathlib

/-
Verification of the real-time socket layer of the yapper chat application
(`server/socket/socketHandlers.js`), together with the data it touches
(`server/models/Message.js`).  The JavaScript handlers are embedded
shallowly: the two module-level `Map`s become association lists with
JavaScript `Map` semantics, the mongoose collections become in-memory
lists, each `socket.on(...)` callback becomes a Lean function from server
state and payload to a new state plus the list of emitted events, and the
one awaited fallible persistence step (`message.save()`) is driven by an
explicit success flag.
-/

namespace Yapper

/-- User identifiers are opaque strings (Mongo ObjectId strings). -/
abbrev UserId := String

/-- Socket identifiers are opaque strings assigned by the transport. -/
abbrev SocketId := String

/-- Message identifiers; generated in order of persistence. -/
abbrev MessageId := Nat

/-! ### JavaScript `Map` semantics over association lists -/

/-- JavaScript `Map.get`: the value stored at the first (unique) matching
key, or `none` (`undefined`). -/
def mapGet {α : Type} (m : List (String × α)) (k : String) : Option α :=
  match m with
  | [] => none
  | (k', v) :: rest => if k' = k then some v else mapGet rest k

/-- JavaScript `Map.set`: replace the entry at the key when present,
append a fresh entry otherwise. -/
def mapSet {α : Type} (m : List (String × α)) (k : String) (v : α) :
    List (String × α) :=
  match m with
  | [] => [(k, v)]
  | (k', v') :: rest =>
    if k' = k then (k, v) :: rest else (k', v') :: mapSet rest k v

/-- JavaScript `Map.delete`: remove the entry at the key. -/
def mapDelete {α : Type} (m : List (String × α)) (k : String) :
    List (String × α) :=
  m.filter (fun p => ¬ p.1 = k)

/-- Occurrences of a key in an association list; a JavaScript `Map` always
has exactly zero or one. -/
def countKey {α : Type} (m : List (String × α)) (k : String) : Nat :=
  (m.filter (fun p => p.1 = k)).length

/-! ### Data model -/

/-- Fields of a persisted user document that the socket layer reads
(`User` model): the friend list and the blocked list (`blockedUsers`),
plus the presence status the handlers write back. -/
structure UserRec where
  friends : List UserId
  blockedUsers : List UserId
  status : String
deriving Repr, DecidableEq

/-- Entry of the module-level `connectedUsers` map:
`{ socketId, user, status }` where `user` is the snapshot captured by the
authentication middleware at connection time. -/
structure ConnEntry where
  socketId : SocketId
  user : UserRec
  status : String
deriving Repr, DecidableEq

/-- Persisted message document (`Message` model), restricted to the fields
the socket layer reads or writes: sender, receiver, content, type, the
optional `replyTo` reference and the read flag. -/
structure Message where
  id : MessageId
  sender : UserId
  receiver : UserId
  content : String
  messageType : String
  replyTo : Option MessageId
  isRead : Bool
deriving Repr, DecidableEq

/-- The external persistence collaborator: user documents keyed by id,
the message collection, and the id generator for newly saved messages. -/
structure DB where
  users : List (UserId × UserRec)
  messages : List Message
  nextMessageId : MessageId
deriving Repr, DecidableEq

/-- State of the socket module: the two module-level maps
(`const connectedUsers = new Map()`, `const videoCallRooms = new Map()`)
and the database.  No handler in the source ever reads or writes
`videoCallRooms`; its entries are modelled with a placeholder value type. -/
structure ServerState where
  connectedUsers : List (UserId × ConnEntry)
  videoCallRooms : List (String × Unit)
  db : DB
deriving Repr, DecidableEq

/-- An authenticated socket: its transport id, the authenticated user id,
and the user snapshot (`socket.user`) loaded once by the middleware. -/
structure Socket where
  id : SocketId
  userId : UserId
  user : UserRec
deriving Repr, DecidableEq

/-- Events emitted by the handlers, with the payload fields a recipient can
observe.  Names follow the event strings of the source. -/
inductive OutEvent where
  | newMessage (message : Message) (senderId : UserId)
  | messageSent (message : Message)
  | error (message : String)
  | userTyping (userId : UserId)
  | userStoppedTyping (userId : UserId)
  | messageRead (messageId : MessageId) (readBy : UserId)
  | friendStatusChange (userId : UserId) (status : String)
  | incomingCall (callerId : UserId) (callType : String)
  | callFailed (message : String)
  | callAnswered (answererId : UserId) (answer : String)
  | iceCandidate (senderId : UserId) (candidate : String)
  | callOffer (senderId : UserId) (offer : String)
  | callAnswerSdp (senderId : UserId) (answer : String)
  | callEnded (senderId : UserId)
  | newFriendRequest (fromId : UserId)
deriving Repr, DecidableEq

/-- One outbound emission: `io.to(target).emit(event)`; `socket.emit`
targets the handling socket's own id. -/
structure Emit where
  target : SocketId
  event : OutEvent
deriving Repr, DecidableEq

/-- Recognizer for the `message_sent` acknowledgment. -/
def OutEvent.isMessageSent : OutEvent → Bool
  | .messageSent _ => true
  | _ => false

/-- Recognizer for the generic `error` event. -/
def OutEvent.isError : OutEvent → Bool
  | .error _ => true
  | _ => false

/-- Recognizer for the `incoming_call` event. -/
def OutEvent.isIncomingCall : OutEvent → Bool
  | .incomingCall _ _ => true
  | _ => false

/-- Recognizer for the `call_ended` event. -/
def OutEvent.isCallEnded : OutEvent → Bool
  | .callEnded _ => true
  | _ => false

/-- Recognizer for the `call_offer` event. -/
def OutEvent.isCallOffer : OutEvent → Bool
  | .callOffer _ _ => true
  | _ => false

/-- Recognizer for the `new_message` delivery event. -/
def OutEvent.isNewMessage : OutEvent → Bool
  | .newMessage _ _ => true
  | _ => false

/-! ### Database helpers used by the handlers -/

/-- Effect of `User.findByIdAndUpdate(id, { status, ... })`: update the
status field of the persisted user document, if it exists. -/
def dbSetUserStatus (db : DB) (id : UserId) (status : String) : DB :=
  { db with users := db.users.map (fun p =>
      if p.1 = id then (p.1, { p.2 with status := status }) else p) }

/-- Effect of `Message.findById(id)` on the message collection. -/
def dbFindMessage (db : DB) (id : MessageId) : Option Message :=
  db.messages.find? (fun m => m.id = id)

/-- Effect of `message.markAsRead()`: set `isRead` on the persisted
message (the source also stamps `readAt`, not modelled). -/
def dbMarkRead (db : DB) (id : MessageId) : DB :=
  { db with messages := db.messages.map (fun m =>
      if m.id = id then { m with isRead := true } else m) }

/-! ### Connection lifecycle (`io.on('connection', ...)` body and the
`disconnect` handler) -/

/-- Fan-out loop shared by connect, `status_change` and disconnect:
`socket.user.friends.forEach(...)` emits `friend_status_change` to every
friend that resolves in `connectedUsers`. -/
def notifyFriends (connected : List (UserId × ConnEntry)) (sock : Socket)
    (status : String) : List Emit :=
  sock.user.friends.filterMap (fun friendId =>
    (mapGet connected friendId).map (fun e =>
      { target := e.socketId
        event := OutEvent.friendStatusChange sock.userId status }))

/-- Body of the connection handler: register the socket in
`connectedUsers` (replacing any prior entry for the same user), persist
status `online`, then notify online friends. -/
def onConnection (st : ServerState) (sock : Socket) :
    ServerState × List Emit :=
  let connected := mapSet st.connectedUsers sock.userId
    { socketId := sock.id, user := sock.user, status := "online" }
  let db := dbSetUserStatus st.db sock.userId "online"
  ({ st with connectedUsers := connected, db := db },
   notifyFriends connected sock "online")

/-- The `disconnect` handler: remove the registry entry, persist status
`offline`, then notify online friends.  Nothing else happens: in
particular no call-related event is emitted and `videoCallRooms` is not
touched. -/
def onDisconnect (st : ServerState) (sock : Socket) :
    ServerState × List Emit :=
  let connected := mapDelete st.connectedUsers sock.userId
  let db := dbSetUserStatus st.db sock.userId "offline"
  ({ st with connectedUsers := connected, db := db },
   notifyFriends connected sock "offline")

/-! ### The `send_message` handler -/

/-- The `send_message` handler.  `saveOk` drives the one awaited fallible
persistence call (`await message.save()`): when it is `false` the `catch`
branch runs and emits the generic failure event.  Control flow of the
source: resolve the receiver in persistence (`Receiver not found` error if
absent), check `socket.user.friends.includes(receiverId)` on the
connect-time snapshot (`Can only send messages to friends` error if
absent), attach `replyTo` only when the referenced message exists, save,
deliver `new_message` to the receiver's socket when online, and always
acknowledge with `message_sent` to the sender. -/
def sendMessage (st : ServerState) (sock : Socket) (receiverId : UserId)
    (content : String) (messageType : String) (replyTo : Option MessageId)
    (saveOk : Bool) : ServerState × List Emit :=
  match mapGet st.db.users receiverId with
  | none => (st, [{ target := sock.id, event := .error "Receiver not found" }])
  | some _ =>
    if sock.user.friends.contains receiverId then
      let replyRef : Option MessageId :=
        match replyTo with
        | none => none
        | some rid =>
          if st.db.messages.any (fun m => m.id = rid) then some rid else none
      if saveOk then
        let msg : Message :=
          { id := st.db.nextMessageId
            sender := sock.userId
            receiver := receiverId
            content := content
            messageType := messageType
            replyTo := replyRef
            isRead := false }
        let db :=
          { st.db with
              messages := st.db.messages ++ [msg]
              nextMessageId := st.db.nextMessageId + 1 }
        let deliver : List Emit :=
          match mapGet st.connectedUsers receiverId with
          | some e => [{ target := e.socketId
                         event := .newMessage msg sock.userId }]
          | none => []
        ({ st with db := db },
         deliver ++ [{ target := sock.id, event := .messageSent msg }])
      else
        (st, [{ target := sock.id, event := .error "Failed to send message" }])
    else
      (st, [{ target := sock.id
              event := .error "Can only send messages to friends" }])

/-! ### Typing indicators and read receipts -/

/-- The `typing_start` handler: pure relay to the receiver when online. -/
def typingStart (st : ServerState) (sock : Socket) (receiverId : UserId) :
    ServerState × List Emit :=
  match mapGet st.connectedUsers receiverId with
  | some e => (st, [{ target := e.socketId, event := .userTyping sock.userId }])
  | none => (st, [])

/-- The `typing_stop` handler: pure relay to the receiver when online. -/
def typingStop (st : ServerState) (sock : Socket) (receiverId : UserId) :
    ServerState × List Emit :=
  match mapGet st.connectedUsers receiverId with
  | some e =>
    (st, [{ target := e.socketId, event := .userStoppedTyping sock.userId }])
  | none => (st, [])

/-- The `mark_read` handler: look the message up; only when it exists and
its persisted `receiver` equals the acting socket's user id, persist the
read flag and notify the original sender when online.  In every other
case nothing changes and nothing is emitted. -/
def markRead (st : ServerState) (sock : Socket) (messageId : MessageId) :
    ServerState × List Emit :=
  match dbFindMessage st.db messageId with
  | some msg =>
    if msg.receiver = sock.userId then
      let db := dbMarkRead st.db messageId
      let notify : List Emit :=
        match mapGet st.connectedUsers msg.sender with
        | some e => [{ target := e.socketId
                       event := .messageRead messageId sock.userId }]
        | none => []
      ({ st with db := db }, notify)
    else (st, [])
  | none => (st, [])

/-! ### Video-call handlers: pure relays keyed on the receiver's presence;
none of them reads or writes any session state -/

/-- The `video_call_request` handler: forward `incoming_call` to the
receiver's socket when online, otherwise emit `call_failed` to the
caller.  No session is created in either case. -/
def videoCallRequest (st : ServerState) (sock : Socket)
    (receiverId : UserId) (callType : String) : ServerState × List Emit :=
  match mapGet st.connectedUsers receiverId with
  | some e =>
    (st, [{ target := e.socketId
            event := .incomingCall sock.userId callType }])
  | none => (st, [{ target := sock.id, event := .callFailed "User is offline" }])

/-- The `video_call_answer` handler: forward `call_answered` to the named
caller when online, otherwise drop silently. -/
def videoCallAnswer (st : ServerState) (sock : Socket) (callerId : UserId)
    (answer : String) : ServerState × List Emit :=
  match mapGet st.connectedUsers callerId with
  | some e =>
    (st, [{ target := e.socketId
            event := .callAnswered sock.userId answer }])
  | none => (st, [])

/-- The `video_call_ice_candidate` handler: forward to the named receiver
when online, otherwise drop silently. -/
def videoCallIceCandidate (st : ServerState) (sock : Socket)
    (receiverId : UserId) (candidate : String) : ServerState × List Emit :=
  match mapGet st.connectedUsers receiverId with
  | some e =>
    (st, [{ target := e.socketId
            event := .iceCandidate sock.userId candidate }])
  | none => (st, [])

/-- The `video_call_offer` handler: forward to the named receiver when
online, otherwise drop silently. -/
def videoCallOffer (st : ServerState) (sock : Socket) (receiverId : UserId)
    (offer : String) : ServerState × List Emit :=
  match mapGet st.connectedUsers receiverId with
  | some e =>
    (st, [{ target := e.socketId, event := .callOffer sock.userId offer }])
  | none => (st, [])

/-- The `video_call_answer_sdp` handler: forward to the named receiver
when online, otherwise drop silently. -/
def videoCallAnswerSdp (st : ServerState) (sock : Socket)
    (receiverId : UserId) (answer : String) : ServerState × List Emit :=
  match mapGet st.connectedUsers receiverId with
  | some e =>
    (st, [{ target := e.socketId
            event := .callAnswerSdp sock.userId answer }])
  | none => (st, [])

/-- The `video_call_end` handler: forward `call_ended` to the named
receiver when online, otherwise drop silently. -/
def videoCallEnd (st : ServerState) (sock : Socket) (receiverId : UserId) :
    ServerState × List Emit :=
  match mapGet st.connectedUsers receiverId with
  | some e =>
    (st, [{ target := e.socketId, event := .callEnded sock.userId }])
  | none => (st, [])

/-- The `friend_request_sent` handler: pure relay to the receiver when
online. -/
def friendRequestSent (st : ServerState) (sock : Socket)
    (receiverId : UserId) : ServerState × List Emit :=
  match mapGet st.connectedUsers receiverId with
  | some e =>
    (st, [{ target := e.socketId, event := .newFriendRequest sock.userId }])
  | none => (st, [])

/-- The `status_change` handler: ignore invalid status values; otherwise
persist the status, update the registry entry in place when present, and
notify online friends. -/
def statusChange (st : ServerState) (sock : Socket) (status : String) :
    ServerState × List Emit :=
  if ["online", "offline", "away", "busy"].contains status then
    let db := dbSetUserStatus st.db sock.userId status
    let connected :=
      match mapGet st.connectedUsers sock.userId with
      | some e => mapSet st.connectedUsers sock.userId { e with status := status }
      | none => st.connectedUsers
    ({ st with connectedUsers := connected, db := db },
     notifyFriends connected sock status)
  else (st, [])

/-! ### Reachable server states -/

/-- Server states reachable from a fresh module load (both module-level
maps empty) over any database, by any interleaving of handler
invocations. -/
inductive Reachable : ServerState → Prop where
  | init (db : DB) :
      Reachable { connectedUsers := [], videoCallRooms := [], db := db }
  | connect {st : ServerState} (sock : Socket) :
      Reachable st → Reachable (onConnection st sock).1
  | disconnect {st : ServerState} (sock : Socket) :
      Reachable st → Reachable (onDisconnect st sock).1
  | send {st : ServerState} (sock : Socket) (receiverId : UserId)
      (content messageType : String) (replyTo : Option MessageId)
      (saveOk : Bool) : Reachable st →
      Reachable (sendMessage st sock receiverId content messageType replyTo saveOk).1
  | typing1 {st : ServerState} (sock : Socket) (receiverId : UserId) :
      Reachable st → Reachable (typingStart st sock receiverId).1
  | typing2 {st : ServerState} (sock : Socket) (receiverId : UserId) :
      Reachable st → Reachable (typingStop st sock receiverId).1
  | markRead {st : ServerState} (sock : Socket) (messageId : MessageId) :
      Reachable st → Reachable (markRead st sock messageId).1
  | callReq {st : ServerState} (sock : Socket) (receiverId : UserId)
      (callType : String) : Reachable st →
      Reachable (videoCallRequest st sock receiverId callType).1
  | callAns {st : ServerState} (sock : Socket) (callerId : UserId)
      (answer : String) : Reachable st →
      Reachable (videoCallAnswer st sock callerId answer).1
  | ice {st : ServerState} (sock : Socket) (receiverId : UserId)
      (candidate : String) : Reachable st →
      Reachable (videoCallIceCandidate st sock receiverId candidate).1
  | offer {st : ServerState} (sock : Socket) (receiverId : UserId)
      (offer : String) : Reachable st →
      Reachable (videoCallOffer st sock receiverId offer).1
  | answerSdp {st : ServerState} (sock : Socket) (receiverId : UserId)
      (answer : String) : Reachable st →
      Reachable (videoCallAnswerSdp st sock receiverId answer).1
  | callEnd {st : ServerState} (sock : Socket) (receiverId : UserId) :
      Reachable st → Reachable (videoCallEnd st sock receiverId).1
  | friendReq {st : ServerState} (sock : Socket) (receiverId : UserId) :
      Reachable st → Reachable (friendRequestSent st sock receiverId).1
  | status {st : ServerState} (sock : Socket) (s : String) :
      Reachable st → Reachable (statusChange st sock s).1

/-! ### Call sessions as described by the specification

The source declares `videoCallRooms` but never reads or writes it; no
handler maintains any call-session state.  The session notion that several
spec sentences quantify over therefore has no counterpart in `src/` and is
modelled here from the spec's words, purely as ghost state to phrase those
sentences against the real handlers. -/

/-- Modelled from the spec: status of a `CallSession`
(`ringing`/`connected`; an ended session is removed). -/
inductive SpecCallStatus where
  | ringing
  | connected
deriving Repr, DecidableEq

/-- Modelled from the spec: a `CallSession` of the Call Signaling Broker —
`callerId`, `calleeId`, `status` — absent from `src/` (the source's
`videoCallRooms` map is declared but never used). -/
structure SpecCallSession where
  callerId : UserId
  calleeId : UserId
  status : SpecCallStatus
deriving Repr, DecidableEq

/-- Modelled from the spec: whether an active session exists for the
unordered pair `{a, b}`. -/
def specSessionActive (sessions : List SpecCallSession) (a b : UserId) :
    Bool :=
  sessions.any (fun s =>
    (s.callerId == a && s.calleeId == b) || (s.callerId == b && s.calleeId == a))

/-- Modelled from the spec: `call_request` session transition — create a
`ringing` session when no session exists for the pair and the callee is
online. -/
def specCallRequest (sessions : List SpecCallSession)
    (caller callee : UserId) (calleeOnline : Bool) : List SpecCallSession :=
  if specSessionActive sessions caller callee then sessions
  else if calleeOnline then
    sessions ++ [{ callerId := caller, calleeId := callee, status := .ringing }]
  else sessions

/-- Modelled from the spec: `call_answer` session transition — an accepted
answer connects the pair's session, a rejected one destroys it. -/
def specCallAnswer (sessions : List SpecCallSession)
    (caller callee : UserId) (accepted : Bool) : List SpecCallSession :=
  if accepted then
    sessions.map (fun s =>
      if (s.callerId == caller && s.calleeId == callee) ||
         (s.callerId == callee && s.calleeId == caller) then
        { s with status := .connected }
      else s)
  else
    sessions.filter (fun s =>
      !((s.callerId == caller && s.calleeId == callee) ||
        (s.callerId == callee && s.calleeId == caller)))

/-- Modelled from the spec: disconnect (or explicit `call_end`) destroys
every session involving the user. -/
def specDropUser (sessions : List SpecCallSession) (u : UserId) :
    List SpecCallSession :=
  sessions.filter (fun s => !(s.callerId == u || s.calleeId == u))

/-! ### Concrete scenario states used by witnesses and counterexamples -/

/-- User A: friends with B, no blocks. -/
def userA : UserRec := { friends := ["B"], blockedUsers := [], status := "offline" }

/-- User B: friends with A, no blocks. -/
def userB : UserRec := { friends := ["A"], blockedUsers := [], status := "offline" }

/-- Database holding users A and B and no messages. -/
def db0 : DB := { users := [("A", userA), ("B", userB)], messages := [], nextMessageId := 0 }

/-- A's socket. -/
def sockA : Socket := { id := "sA", userId := "A", user := userA }

/-- B's socket. -/
def sockB : Socket := { id := "sB", userId := "B", user := userB }

/-- Fresh module state over `db0`. -/
def st0 : ServerState := { connectedUsers := [], videoCallRooms := [], db := db0 }

/-- State after A connects. -/
def stA : ServerState := (onConnection st0 sockA).1

/-- State after A and then B connect. -/
def stAB : ServerState := (onConnection stA sockB).1

/-- Spec-level ghost sessions after A's `video_call_request` to the online
B in `stAB`: one ringing session. -/
def specSessions1 : List SpecCallSession := specCallRequest [] "A" "B" true

/-- Spec-level ghost sessions after B accepts: one connected session. -/
def specSessions2 : List SpecCallSession := specCallAnswer specSessions1 "A" "B" true

/-- User A with B both befriended and blocked (mutual blocks are reachable
through the HTTP routes: block, then friend-request and accept, which
never consult `blockedUsers`; the connect-time snapshot then carries
both). -/
def userAblk : UserRec := { friends := ["B"], blockedUsers := ["B"], status := "offline" }

/-- User B with A both befriended and blocked. -/
def userBblk : UserRec := { friends := ["A"], blockedUsers := ["A"], status := "offline" }

/-- Database for the mutually-blocked-friends scenario. -/
def dbBlk : DB := { users := [("A", userAblk), ("B", userBblk)], messages := [], nextMessageId := 0 }

/-- A's socket in the blocked scenario. -/
def sockAblk : Socket := { id := "sA", userId := "A", user := userAblk }

/-- B's socket in the blocked scenario. -/
def sockBblk : Socket := { id := "sB", userId := "B", user := userBblk }

/-- Blocked scenario with both users connected. -/
def stBlk : ServerState :=
  (onConnection (onConnection { connectedUsers := [], videoCallRooms := [], db := dbBlk } sockAblk).1 sockBblk).1

/-- The message the blocked-scenario send persists. -/
def msgBlk : Message :=
  { id := 0, sender := "A", receiver := "B", content := "hi",
    messageType := "text", replyTo := none, isRead := false }

/-- A persisted unread message from A to B, for the read-receipt
scenario. -/
def msg0 : Message :=
  { id := 0, sender := "A", receiver := "B", content := "hello",
    messageType := "text", replyTo := none, isRead := false }

/-- Database holding users A and B and the one message `msg0`. -/
def dbMsg : DB := { users := [("A", userA), ("B", userB)], messages := [msg0], nextMessageId := 1 }

/-- Read-receipt scenario with both users connected over `dbMsg`. -/
def stMsg : ServerState :=
  (onConnection (onConnection { connectedUsers := [], videoCallRooms := [], db := dbMsg } sockA).1 sockB).1

/-! ## Lemmas about the `Map` primitives -/

theorem mapGet_mapSet_self {α : Type} (m : List (String × α)) (k : String)
    (v : α) : mapGet (mapSet m k v) k = some v := by
  induction m with
  | nil => simp [mapSet, mapGet]
  | cons p rest ih =>
    obtain ⟨k', v'⟩ := p
    by_cases h : k' = k
    · simp [mapSet, h, mapGet]
    · simp [mapSet, h, mapGet, ih]

theorem mapGet_mapDelete_self {α : Type} (m : List (String × α))
    (k : String) : mapGet (mapDelete m k) k = none := by
  induction m with
  | nil => rfl
  | cons p rest ih =>
    obtain ⟨k', v'⟩ := p
    by_cases h : k' = k
    · simpa [mapDelete, h] using ih
    · simpa [mapDelete, mapGet, h] using ih

theorem mem_keys_mapSet {α : Type} (m : List (String × α)) (k : String)
    (v : α) (a : String) :
    a ∈ (mapSet m k v).map Prod.fst ↔ a ∈ m.map Prod.fst ∨ a = k := by
  induction m with
  | nil => simp [mapSet]
  | cons p rest ih =>
    obtain ⟨k', v'⟩ := p
    by_cases h : k' = k
    · subst h; simp [mapSet]; tauto
    · simp [mapSet, h, ih]; tauto

theorem nodup_keys_mapSet {α : Type} {m : List (String × α)}
    (h : (m.map Prod.fst).Nodup) (k : String) (v : α) :
    ((mapSet m k v).map Prod.fst).Nodup := by
  induction m with
  | nil => simp [mapSet]
  | cons p rest ih =>
    obtain ⟨k', v'⟩ := p
    simp only [List.map_cons, List.nodup_cons] at h
    by_cases hk : k' = k
    · subst hk
      simpa [mapSet] using h
    · have hstep : mapSet ((k', v') :: rest) k v = (k', v') :: mapSet rest k v := by
        simp [mapSet, hk]
      rw [hstep, List.map_cons, List.nodup_cons]
      refine ⟨fun hmem => ?_, ih h.2⟩
      rcases (mem_keys_mapSet rest k v k').mp hmem with h1 | h1
      · exact h.1 h1
      · exact hk h1

theorem nodup_keys_mapDelete {α : Type} {m : List (String × α)}
    (h : (m.map Prod.fst).Nodup) (k : String) :
    ((mapDelete m k).map Prod.fst).Nodup :=
  h.sublist ((m.filter_sublist).map Prod.fst)

theorem countKey_eq_zero_of_not_mem {α : Type} {m : List (String × α)}
    {a : String} (h : a ∉ m.map Prod.fst) : countKey m a = 0 := by
  induction m with
  | nil => rfl
  | cons p rest ih =>
    obtain ⟨k', v'⟩ := p
    simp only [List.map_cons, List.mem_cons] at h
    push_neg at h
    simpa [countKey, List.filter, Ne.symm h.1] using ih h.2

theorem countKey_cons {α : Type} (k' : String) (v' : α)
    (rest : List (String × α)) (k : String) :
    countKey ((k', v') :: rest) k
      = (if k' = k then 1 else 0) + countKey rest k := by
  by_cases h : k' = k <;> simp [countKey, List.filter_cons, h, Nat.add_comm]

theorem countKey_le_one {α : Type} {m : List (String × α)}
    (h : (m.map Prod.fst).Nodup) (k : String) : countKey m k ≤ 1 := by
  induction m with
  | nil => simp [countKey]
  | cons p rest ih =>
    obtain ⟨k', v'⟩ := p
    simp only [List.map_cons, List.nodup_cons] at h
    rw [countKey_cons]
    by_cases hk : k' = k
    · subst hk
      have hz : countKey rest k' = 0 := countKey_eq_zero_of_not_mem h.1
      simp [hz]
    · simpa [hk] using ih h.2

theorem countKey_mapSet_self {α : Type} {m : List (String × α)}
    (h : (m.map Prod.fst).Nodup) (k : String) (v : α) :
    countKey (mapSet m k v) k = 1 := by
  induction m with
  | nil => simp [mapSet, countKey, List.filter]
  | cons p rest ih =>
    obtain ⟨k', v'⟩ := p
    simp only [List.map_cons, List.nodup_cons] at h
    by_cases hk : k' = k
    · subst hk
      have hz : countKey rest k' = 0 := countKey_eq_zero_of_not_mem h.1
      have hstep : mapSet ((k', v') :: rest) k' v = (k', v) :: rest := by
        simp [mapSet]
      rw [hstep, countKey_cons]
      simp [hz]
    · have hstep : mapSet ((k', v') :: rest) k v = (k', v') :: mapSet rest k v := by
        simp [mapSet, hk]
      rw [hstep, countKey_cons]
      simpa [hk] using ih h.2

/-! ## Shape lemmas for the handlers -/

theorem sendMessage_fst (st : ServerState) (sock : Socket)
    (receiverId : UserId) (content messageType : String)
    (replyTo : Option MessageId) (saveOk : Bool) :
    ∃ d, (sendMessage st sock receiverId content messageType replyTo saveOk).1
      = { st with db := d } := by
  unfold sendMessage
  cases hu : mapGet st.db.users receiverId with
  | none => exact ⟨st.db, rfl⟩
  | some u =>
    cases hf : sock.user.friends.contains receiverId with
    | false => simp only [hf]; exact ⟨st.db, rfl⟩
    | true =>
      cases saveOk with
      | false => simp only [hf]; exact ⟨st.db, rfl⟩
      | true =>
        simp only [hf]
        cases hg : mapGet st.connectedUsers receiverId <;> exact ⟨_, rfl⟩

theorem markRead_fst (st : ServerState) (sock : Socket)
    (messageId : MessageId) :
    ∃ d, (markRead st sock messageId).1 = { st with db := d } := by
  unfold markRead
  cases hm : dbFindMessage st.db messageId with
  | none => exact ⟨st.db, rfl⟩
  | some msg =>
    by_cases hr : msg.receiver = sock.userId
    · simp only [hr, if_pos]
      cases hg : mapGet st.connectedUsers msg.sender <;> exact ⟨_, rfl⟩
    · simp only [hr, if_neg, not_false_iff]
      exact ⟨st.db, rfl⟩

theorem typingStart_fst (st : ServerState) (sock : Socket)
    (receiverId : UserId) : (typingStart st sock receiverId).1 = st := by
  unfold typingStart
  cases h : mapGet st.connectedUsers receiverId <;> rfl

theorem typingStop_fst (st : ServerState) (sock : Socket)
    (receiverId : UserId) : (typingStop st sock receiverId).1 = st := by
  unfold typingStop
  cases h : mapGet st.connectedUsers receiverId <;> rfl

theorem videoCallRequest_fst (st : ServerState) (sock : Socket)
    (receiverId : UserId) (callType : String) :
    (videoCallRequest st sock receiverId callType).1 = st := by
  unfold videoCallRequest
  cases h : mapGet st.connectedUsers receiverId <;> rfl

theorem videoCallAnswer_fst (st : ServerState) (sock : Socket)
    (callerId : UserId) (answer : String) :
    (videoCallAnswer st sock callerId answer).1 = st := by
  unfold videoCallAnswer
  cases h : mapGet st.connectedUsers callerId <;> rfl

theorem videoCallIceCandidate_fst (st : ServerState) (sock : Socket)
    (receiverId : UserId) (candidate : String) :
    (videoCallIceCandidate st sock receiverId candidate).1 = st := by
  unfold videoCallIceCandidate
  cases h : mapGet st.connectedUsers receiverId <;> rfl

theorem videoCallOffer_fst (st : ServerState) (sock : Socket)
    (receiverId : UserId) (offer : String) :
    (videoCallOffer st sock receiverId offer).1 = st := by
  unfold videoCallOffer
  cases h : mapGet st.connectedUsers receiverId <;> rfl

theorem videoCallAnswerSdp_fst (st : ServerState) (sock : Socket)
    (receiverId : UserId) (answer : String) :
    (videoCallAnswerSdp st sock receiverId answer).1 = st := by
  unfold videoCallAnswerSdp
  cases h : mapGet st.connectedUsers receiverId <;> rfl

theorem videoCallEnd_fst (st : ServerState) (sock : Socket)
    (receiverId : UserId) : (videoCallEnd st sock receiverId).1 = st := by
  unfold videoCallEnd
  cases h : mapGet st.connectedUsers receiverId <;> rfl

theorem friendRequestSent_fst (st : ServerState) (sock : Socket)
    (receiverId : UserId) : (friendRequestSent st sock receiverId).1 = st := by
  unfold friendRequestSent
  cases h : mapGet st.connectedUsers receiverId <;> rfl

/-! ## Reachability invariants -/

theorem reachable_nodup_keys {st : ServerState} (h : Reachable st) :
    (st.connectedUsers.map Prod.fst).Nodup := by
  induction h with
  | init db => simp
  | @connect st sock _ ih => exact nodup_keys_mapSet ih _ _
  | @disconnect st sock _ ih => exact nodup_keys_mapDelete ih _
  | @send st sock r c mt rt ok _ ih =>
    obtain ⟨d, hd⟩ := sendMessage_fst st sock r c mt rt ok
    rw [hd]; exact ih
  | @typing1 st sock r _ ih => rw [typingStart_fst]; exact ih
  | @typing2 st sock r _ ih => rw [typingStop_fst]; exact ih
  | @markRead st sock mid _ ih =>
    obtain ⟨d, hd⟩ := markRead_fst st sock mid
    rw [hd]; exact ih
  | @callReq st sock r ct _ ih => rw [videoCallRequest_fst]; exact ih
  | @callAns st sock c a _ ih => rw [videoCallAnswer_fst]; exact ih
  | @ice st sock r c _ ih => rw [videoCallIceCandidate_fst]; exact ih
  | @offer st sock r o _ ih => rw [videoCallOffer_fst]; exact ih
  | @answerSdp st sock r a _ ih => rw [videoCallAnswerSdp_fst]; exact ih
  | @callEnd st sock r _ ih => rw [videoCallEnd_fst]; exact ih
  | @friendReq st sock r _ ih => rw [friendRequestSent_fst]; exact ih
  | @status st sock s _ ih =>
    unfold statusChange
    by_cases hv : (["online", "offline", "away", "busy"].contains s) = true
    · simp only [hv, if_true]
      cases hg : mapGet st.connectedUsers sock.userId with
      | none => simpa [hg] using ih
      | some e =>
        simp only [hg]
        exact nodup_keys_mapSet ih _ _
    · simp only [hv, if_false]
      exact ih

theorem reachable_rooms_empty {st : ServerState} (h : Reachable st) :
    st.videoCallRooms = [] := by
  induction h with
  | init db => rfl
  | @connect st sock _ ih => exact ih
  | @disconnect st sock _ ih => exact ih
  | @send st sock r c mt rt ok _ ih =>
    obtain ⟨d, hd⟩ := sendMessage_fst st sock r c mt rt ok
    rw [hd]; exact ih
  | @typing1 st sock r _ ih => rw [typingStart_fst]; exact ih
  | @typing2 st sock r _ ih => rw [typingStop_fst]; exact ih
  | @markRead st sock mid _ ih =>
    obtain ⟨d, hd⟩ := markRead_fst st sock mid
    rw [hd]; exact ih
  | @callReq st sock r ct _ ih => rw [videoCallRequest_fst]; exact ih
  | @callAns st sock c a _ ih => rw [videoCallAnswer_fst]; exact ih
  | @ice st sock r c _ ih => rw [videoCallIceCandidate_fst]; exact ih
  | @offer st sock r o _ ih => rw [videoCallOffer_fst]; exact ih
  | @answerSdp st sock r a _ ih => rw [videoCallAnswerSdp_fst]; exact ih
  | @callEnd st sock r _ ih => rw [videoCallEnd_fst]; exact ih
  | @friendReq st sock r _ ih => rw [friendRequestSent_fst]; exact ih
  | @status st sock s _ ih =>
    unfold statusChange
    by_cases hv : (["online", "offline", "away", "busy"].contains s) = true
    · simp only [hv, if_true]
      exact ih
    · simp only [hv, if_false]
      exact ih

theorem notifyFriends_all (connected : List (UserId × ConnEntry))
    (sock : Socket) (status : String) :
    ((notifyFriends connected sock status).all fun e =>
      e.event == OutEvent.friendStatusChange sock.userId status) = true := by
  rw [List.all_eq_true]
  intro e he
  unfold notifyFriends at he
  rw [List.mem_filterMap] at he
  obtain ⟨fid, _, hmap⟩ := he
  cases hg : mapGet connected fid with
  | none => rw [hg] at hmap; simp at hmap
  | some en =>
    rw [hg] at hmap
    simp only [Option.map_some', Option.some.injEq] at hmap
    rw [← hmap]
    simp

/-! ## Claim C9 -/

/-- C9: in every reachable state at most one connection entry exists per
user, and registering a connection for a user again replaces the prior
entry — afterwards there is still exactly one entry for that user and it
is the new one. -/
theorem registry_at_most_one_connection {st : ServerState}
    (h : Reachable st) :
    (∀ u, countKey st.connectedUsers u ≤ 1) ∧
    (∀ u e, countKey (mapSet st.connectedUsers u e) u = 1 ∧
      mapGet (mapSet st.connectedUsers u e) u = some e) :=
  ⟨fun u => countKey_le_one (reachable_nodup_keys h) u,
   fun u e => ⟨countKey_mapSet_self (reachable_nodup_keys h) u e,
     mapGet_mapSet_self _ u e⟩⟩

/-- Witness for C9 at the concrete reachable state with A and B connected:
re-registering A keeps exactly one entry for A. -/
theorem registry_at_most_one_connection_witness :
    countKey stAB.connectedUsers "A" ≤ 1 ∧
    countKey (mapSet stAB.connectedUsers "A"
      { socketId := "sA2", user := userA, status := "online" }) "A" = 1 := by
  have hr : Reachable stAB :=
    Reachable.connect sockB (Reachable.connect sockA (Reachable.init db0))
  exact ⟨(registry_at_most_one_connection hr).1 "A",
    ((registry_at_most_one_connection hr).2 "A" _).1⟩

/-! ## Claim C1 -/

/-- C1 (amended): the broker keeps no session state at all — in every
reachable state `videoCallRooms` is empty, so at most one session per
unordered pair holds trivially — and a `video_call_request` while a call
is in progress is not rejected: whenever the receiver is online the
handler forwards `incoming_call` and leaves the state unchanged. -/
theorem no_sessions_and_request_never_rejected {st : ServerState}
    (h : Reachable st) :
    st.videoCallRooms = [] ∧
    (∀ k, countKey st.videoCallRooms k ≤ 1) ∧
    (∀ sock receiverId callType e,
      mapGet st.connectedUsers receiverId = some e →
      videoCallRequest st sock receiverId callType =
        (st, [{ target := e.socketId
                event := OutEvent.incomingCall sock.userId callType }])) := by
  refine ⟨reachable_rooms_empty h, ?_, ?_⟩
  · intro k
    rw [reachable_rooms_empty h]
    simp [countKey]
  · intro sock receiverId callType e he
    unfold videoCallRequest
    rw [he]

/-- Witness for C1 (amended) at the reachable state with A and B
connected. -/
theorem no_sessions_witness :
    stAB.videoCallRooms = [] ∧
    videoCallRequest stAB sockA "B" "video" =
      (stAB, [{ target := "sB", event := OutEvent.incomingCall "A" "video" }]) := by
  have hr : Reachable stAB :=
    Reachable.connect sockB (Reachable.connect sockA (Reachable.init db0))
  refine ⟨(no_sessions_and_request_never_rejected hr).1, ?_⟩
  exact (no_sessions_and_request_never_rejected hr).2.2 sockA "B" "video"
    { socketId := "sB", user := userB, status := "online" } (by decide)

/-- C1 counterexample: with A and B online, A's first request makes the
spec-level session for {A, B} active (ringing); the next
`video_call_request` from A for the same pair is not rejected — the
handler forwards a second `incoming_call` to B. -/
theorem second_call_request_forwards_again :
    specSessionActive specSessions1 "A" "B" = true ∧
    (videoCallRequest stAB sockA "B" "video").2 =
      [{ target := "sB", event := OutEvent.incomingCall "A" "video" }] :=
  ⟨by decide, by decide⟩

/-! ## Claim C4 -/

/-- C4 (amended): disconnect teardown removes the user's registry entry
and fans out only offline presence notifications; no call-session state
exists to destroy and no `call_ended` is ever emitted on disconnect. -/
theorem disconnect_teardown_no_call_events (st : ServerState)
    (sock : Socket) :
    mapGet (onDisconnect st sock).1.connectedUsers sock.userId = none ∧
    (onDisconnect st sock).1.videoCallRooms = st.videoCallRooms ∧
    ((onDisconnect st sock).2.all fun e =>
      e.event == OutEvent.friendStatusChange sock.userId "offline") = true :=
  ⟨mapGet_mapDelete_self _ _, rfl, notifyFriends_all _ sock "offline"⟩

/-- C4 counterexample: A and B are in a spec-level connected call; A
disconnects; teardown emits only the offline presence event to B — no
`call_ended` reaches the remaining party. -/
theorem disconnect_in_call_no_call_ended :
    specSessionActive specSessions2 "A" "B" = true ∧
    (onDisconnect stAB sockA).2 =
      [{ target := "sB", event := OutEvent.friendStatusChange "A" "offline" }] ∧
    ((onDisconnect stAB sockA).2.all fun e => !e.event.isCallEnded) = true :=
  ⟨by decide, by decide, by decide⟩

/-! ## Claim C5 -/

/-- C5 (amended): each signaling relay handler keeps the state unchanged
(no session is consulted, created or destroyed — none exists) and routes
purely on the named peer's presence: when the peer is offline the event is
dropped silently with no error to the sender, and when the peer is online
it is always forwarded, session or no session. -/
theorem signaling_relay_depends_only_on_presence (st : ServerState)
    (sock : Socket) (peerId : UserId) (offer answer candidate : String) :
    (videoCallOffer st sock peerId offer).1 = st ∧
    (videoCallAnswerSdp st sock peerId answer).1 = st ∧
    (videoCallIceCandidate st sock peerId candidate).1 = st ∧
    (videoCallEnd st sock peerId).1 = st ∧
    (videoCallAnswer st sock peerId answer).1 = st ∧
    (mapGet st.connectedUsers peerId = none →
      (videoCallOffer st sock peerId offer).2 = [] ∧
      (videoCallAnswerSdp st sock peerId answer).2 = [] ∧
      (videoCallIceCandidate st sock peerId candidate).2 = [] ∧
      (videoCallEnd st sock peerId).2 = [] ∧
      (videoCallAnswer st sock peerId answer).2 = []) ∧
    (∀ e, mapGet st.connectedUsers peerId = some e →
      (videoCallOffer st sock peerId offer).2 =
        [{ target := e.socketId, event := OutEvent.callOffer sock.userId offer }] ∧
      (videoCallAnswerSdp st sock peerId answer).2 =
        [{ target := e.socketId, event := OutEvent.callAnswerSdp sock.userId answer }] ∧
      (videoCallIceCandidate st sock peerId candidate).2 =
        [{ target := e.socketId, event := OutEvent.iceCandidate sock.userId candidate }] ∧
      (videoCallEnd st sock peerId).2 =
        [{ target := e.socketId, event := OutEvent.callEnded sock.userId }] ∧
      (videoCallAnswer st sock peerId answer).2 =
        [{ target := e.socketId, event := OutEvent.callAnswered sock.userId answer }]) := by
  refine ⟨videoCallOffer_fst .., videoCallAnswerSdp_fst .., videoCallIceCandidate_fst ..,
    videoCallEnd_fst .., videoCallAnswer_fst .., fun hn => ?_, fun e he => ?_⟩
  · unfold videoCallOffer videoCallAnswerSdp videoCallIceCandidate videoCallEnd videoCallAnswer
    rw [hn]
    exact ⟨rfl, rfl, rfl, rfl, rfl⟩
  · unfold videoCallOffer videoCallAnswerSdp videoCallIceCandidate videoCallEnd videoCallAnswer
    rw [he]
    exact ⟨rfl, rfl, rfl, rfl, rfl⟩

/-- Witness for C5 (amended) at the reachable state with A and B
connected. -/
theorem signaling_relay_witness :
    mapGet stAB.connectedUsers "B" =
      some { socketId := "sB", user := userB, status := "online" } ∧
    (videoCallOffer stAB sockA "B" "o1").2 =
      [{ target := "sB", event := OutEvent.callOffer "A" "o1" }] ∧
    (videoCallEnd stAB sockA "B").2 =
      [{ target := "sB", event := OutEvent.callEnded "A" }] := by
  have h := (signaling_relay_depends_only_on_presence stAB sockA "B" "o1" "a1" "c1").2.2.2.2.2.2
    { socketId := "sB", user := userB, status := "online" } (by decide)
  exact ⟨by decide, h.1, h.2.2.2.1⟩

/-- C5 counterexample: no session of any kind exists for {A, B} — the
code-level session map is empty and no call was ever requested at the
spec level — yet A's stray `video_call_offer` is forwarded to B rather
than dropped. -/
theorem sessionless_offer_still_forwarded :
    stAB.videoCallRooms = [] ∧
    specSessionActive [] "A" "B" = false ∧
    (videoCallOffer stAB sockA "B" "sdp-offer").2 =
      [{ target := "sB", event := OutEvent.callOffer "A" "sdp-offer" }] :=
  ⟨by decide, by decide, by decide⟩

/-! ## Claim C6 -/

/-- C6: a `video_call_request` whose receiver is not in the connection
registry changes nothing — in particular no session is created — and
emits exactly one `call_failed` event, to the caller; nothing is delivered
to the receiver. -/
theorem call_request_offline_fails (st : ServerState) (sock : Socket)
    (receiverId : UserId) (callType : String)
    (h : mapGet st.connectedUsers receiverId = none) :
    videoCallRequest st sock receiverId callType =
      (st, [{ target := sock.id
              event := OutEvent.callFailed "User is offline" }]) := by
  unfold videoCallRequest
  rw [h]

/-- Witness for C6: in the fresh state nobody is connected, so A's request
to B yields exactly one `call_failed` back to A. -/
theorem call_request_offline_fails_witness :
    mapGet st0.connectedUsers "B" = none ∧
    videoCallRequest st0 sockA "B" "video" =
      (st0, [{ target := "sA", event := OutEvent.callFailed "User is offline" }]) :=
  ⟨rfl, call_request_offline_fails st0 sockA "B" "video" rfl⟩

/-! ## Claim C3 -/

/-- C3: a single `send_message` emits to the sender exactly one
`message_sent` acknowledgment when the gate allows the send and the save
succeeds, and exactly one error event otherwise — never both and never
neither. -/
theorem send_message_exactly_one_ack_or_error (st : ServerState)
    (sock : Socket) (receiverId : UserId) (content messageType : String)
    (replyTo : Option MessageId) (saveOk : Bool) :
    (((sendMessage st sock receiverId content messageType replyTo saveOk).2.filter
        fun e => e.target == sock.id && e.event.isMessageSent).length
      = if (mapGet st.db.users receiverId).isSome
            && sock.user.friends.contains receiverId && saveOk then 1 else 0) ∧
    (((sendMessage st sock receiverId content messageType replyTo saveOk).2.filter
        fun e => e.target == sock.id && e.event.isError).length
      = if (mapGet st.db.users receiverId).isSome
            && sock.user.friends.contains receiverId && saveOk then 0 else 1) := by
  unfold sendMessage
  cases hu : mapGet st.db.users receiverId with
  | none => simp [OutEvent.isMessageSent, OutEvent.isError]
  | some u =>
    cases hf : sock.user.friends.contains receiverId with
    | false => simp [hf, OutEvent.isMessageSent, OutEvent.isError]
    | true =>
      cases saveOk with
      | false => simp [hf, OutEvent.isMessageSent, OutEvent.isError]
      | true =>
        cases hg : mapGet st.connectedUsers receiverId with
        | none => simp [hf, hg, OutEvent.isMessageSent, OutEvent.isError]
        | some e => simp [hf, hg, OutEvent.isMessageSent, OutEvent.isError]

/-! ## Claim C7 -/

/-- C7: when the receiver is not in the sender's friend snapshot the send
is denied: the state — in particular the message store — is unchanged, and
the only emission is a single error event back to the sender. -/
theorem send_message_non_friend_denied (st : ServerState) (sock : Socket)
    (receiverId : UserId) (content messageType : String)
    (replyTo : Option MessageId) (saveOk : Bool)
    (h : sock.user.friends.contains receiverId = false) :
    sendMessage st sock receiverId content messageType replyTo saveOk =
      (st, [{ target := sock.id
              event := OutEvent.error
                (if (mapGet st.db.users receiverId).isSome then
                  "Can only send messages to friends"
                 else "Receiver not found") }]) := by
  have h' : receiverId ∉ sock.user.friends := by simpa using h
  unfold sendMessage
  cases hu : mapGet st.db.users receiverId with
  | none => simp
  | some u => simp [h']

/-- Witness for C7: with A and B connected, A sending to the existing
non-friend user A itself is denied with the friends error and the state
stays put. -/
theorem send_message_non_friend_denied_witness :
    sockA.user.friends.contains "A" = false ∧
    sendMessage stAB sockA "A" "hi" "text" none true =
      (stAB, [{ target := "sA"
                event := OutEvent.error "Can only send messages to friends" }]) := by
  refine ⟨by decide, ?_⟩
  have h := send_message_non_friend_denied stAB sockA "A" "hi" "text" none true (by decide)
  rw [h]
  decide

/-! ## Claim C2 -/

theorem sendMessage_allowed_shape (st : ServerState) (sock : Socket)
    (receiverId : UserId) (u : UserRec) (content messageType : String)
    (hu : mapGet st.db.users receiverId = some u)
    (hf : sock.user.friends.contains receiverId = true) :
    (sendMessage st sock receiverId content messageType none true).1.db.messages
      = st.db.messages ++
        [{ id := st.db.nextMessageId, sender := sock.userId,
           receiver := receiverId, content := content,
           messageType := messageType, replyTo := none, isRead := false }] ∧
    ((sendMessage st sock receiverId content messageType none true).2.all
      fun e => !e.event.isError) = true ∧
    ((sendMessage st sock receiverId content messageType none true).2.filter
      fun e => e.event.isMessageSent).length = 1 := by
  have hf' : receiverId ∈ sock.user.friends := by simpa using hf
  unfold sendMessage
  rw [hu]
  cases hg : mapGet st.connectedUsers receiverId with
  | none => simp [hf', hg, OutEvent.isError, OutEvent.isMessageSent]
  | some e => simp [hf', hg, OutEvent.isError, OutEvent.isMessageSent]

/-- C2 (amended): `send_message` never consults blocked sets — whenever
the receiver exists in persistence, the receiver is in the sender's
connect-time friend snapshot and the save succeeds, the message is
persisted and delivered/acknowledged with no error event, regardless of
either user's `blockedUsers`. -/
theorem send_message_ignores_blocked_sets (st : ServerState) (sock : Socket)
    (receiverId : UserId) (u : UserRec) (content messageType : String)
    (hu : mapGet st.db.users receiverId = some u)
    (hf : sock.user.friends.contains receiverId = true) :
    (sendMessage st sock receiverId content messageType none true).1.db.messages
      = st.db.messages ++
        [{ id := st.db.nextMessageId, sender := sock.userId,
           receiver := receiverId, content := content,
           messageType := messageType, replyTo := none, isRead := false }] ∧
    ((sendMessage st sock receiverId content messageType none true).2.all
      fun e => !e.event.isError) = true ∧
    ((sendMessage st sock receiverId content messageType none true).2.filter
      fun e => e.event.isMessageSent).length = 1 :=
  sendMessage_allowed_shape st sock receiverId u content messageType hu hf

/-- Witness for C2 (amended) at the mutually-blocked-friends state: the
send persists despite the blocks. -/
theorem send_message_ignores_blocked_sets_witness :
    mapGet stBlk.db.users "B" =
      some { friends := ["A"], blockedUsers := ["A"], status := "online" } ∧
    sockAblk.user.friends.contains "B" = true ∧
    (sendMessage stBlk sockAblk "B" "yo" "text" none true).1.db.messages =
      [{ id := 0, sender := "A", receiver := "B", content := "yo",
         messageType := "text", replyTo := none, isRead := false }] := by
  refine ⟨by decide, by decide, ?_⟩
  have h := (send_message_ignores_blocked_sets stBlk sockAblk "B"
    { friends := ["A"], blockedUsers := ["A"], status := "online" }
    "yo" "text" (by decide) (by decide)).1
  rw [h]
  decide

/-- C2 counterexample: A and B are each in the other's friend set AND each
in the other's blocked set, both online; A's send to B is not denied — it
is persisted, delivered to B as `new_message`, and acknowledged to A, with
no error event. -/
theorem blocked_friends_send_allowed :
    userAblk.blockedUsers.contains "B" = true ∧
    userBblk.blockedUsers.contains "A" = true ∧
    userAblk.friends.contains "B" = true ∧
    userBblk.friends.contains "A" = true ∧
    (sendMessage stBlk sockAblk "B" "hi" "text" none true).2 =
      [{ target := "sB", event := OutEvent.newMessage msgBlk "A" },
       { target := "sA", event := OutEvent.messageSent msgBlk }] ∧
    (sendMessage stBlk sockAblk "B" "hi" "text" none true).1.db.messages
      = [msgBlk] :=
  ⟨by decide, by decide, by decide, by decide, by decide, by decide⟩

/-! ## Claim C8 -/

theorem find?_markRead_list (l : List Message) (mid : MessageId) :
    ((l.map fun m => if m.id = mid then { m with isRead := true } else m).find?
        fun m => m.id = mid)
      = (l.find? fun m => m.id = mid).map fun m => { m with isRead := true } := by
  induction l with
  | nil => rfl
  | cons m rest ih =>
    by_cases h : m.id = mid
    · simp [List.find?_cons, h]
    · simp [List.find?_cons, h, ih]

/-- C8: `mark_read` changes state and notifies only when the acting user
is the persisted message's receiver.  For any other actor, or an unknown
message id, nothing changes and nothing is emitted; on success the read
flag is persisted and a `message_read` event goes to the original sender
exactly when the sender is online. -/
theorem mark_read_receiver_only (st : ServerState) (sock : Socket)
    (messageId : MessageId) :
    ((∀ msg, dbFindMessage st.db messageId = some msg →
        msg.receiver ≠ sock.userId →
        markRead st sock messageId = (st, [])) ∧
     (dbFindMessage st.db messageId = none →
        markRead st sock messageId = (st, []))) ∧
    (∀ msg, dbFindMessage st.db messageId = some msg →
      msg.receiver = sock.userId →
      (dbFindMessage (markRead st sock messageId).1.db messageId).map
          Message.isRead = some true ∧
      (markRead st sock messageId).1.connectedUsers = st.connectedUsers ∧
      (markRead st sock messageId).2 =
        (match mapGet st.connectedUsers msg.sender with
         | some e => [{ target := e.socketId
                        event := OutEvent.messageRead messageId sock.userId }]
         | none => [])) := by
  refine ⟨⟨fun msg hm hr => ?_, fun hm => ?_⟩, fun msg hm hr => ?_⟩
  · unfold markRead
    rw [hm]
    simp [hr]
  · unfold markRead
    rw [hm]
  · have h1 : markRead st sock messageId =
        ({ st with db := dbMarkRead st.db messageId },
         match mapGet st.connectedUsers msg.sender with
         | some e => [{ target := e.socketId
                        event := OutEvent.messageRead messageId sock.userId }]
         | none => []) := by
      unfold markRead
      rw [hm]
      simp [hr]
    rw [h1]
    refine ⟨?_, rfl, rfl⟩
    show (dbFindMessage (dbMarkRead st.db messageId) messageId).map
      Message.isRead = some true
    unfold dbFindMessage dbMarkRead at *
    rw [find?_markRead_list, hm]
    rfl

/-- Witness for C8 at the concrete state: B (the receiver of `msg0`) marks
it read; the flag is persisted and the online sender A is notified. -/
theorem mark_read_receiver_only_witness :
    dbFindMessage stMsg.db 0 = some msg0 ∧
    (dbFindMessage (markRead stMsg sockB 0).1.db 0).map Message.isRead
      = some true ∧
    (markRead stMsg sockB 0).2 =
      [{ target := "sA", event := OutEvent.messageRead 0 "B" }] := by
  have h := (mark_read_receiver_only stMsg sockB 0).2 msg0 (by decide) (by decide)
  refine ⟨by decide, h.1, ?_⟩
  rw [h.2.2]
  decide

/-! ## Claim C10 -/

/-- C10: a `replyTo` referencing no persisted message is silently dropped:
the send behaves exactly as if no `replyTo` had been supplied, and on the
allowed path the persisted message carries no reply reference. -/
theorem invalid_reply_reference_dropped (st : ServerState) (sock : Socket)
    (receiverId : UserId) (content messageType : String) (rid : MessageId)
    (saveOk : Bool)
    (h : (st.db.messages.any fun m => m.id = rid) = false) :
    sendMessage st sock receiverId content messageType (some rid) saveOk =
      sendMessage st sock receiverId content messageType none saveOk ∧
    (∀ u, mapGet st.db.users receiverId = some u →
      sock.user.friends.contains receiverId = true →
      (sendMessage st sock receiverId content messageType (some rid) true).1.db.messages
        = st.db.messages ++
          [{ id := st.db.nextMessageId, sender := sock.userId,
             receiver := receiverId, content := content,
             messageType := messageType, replyTo := none, isRead := false }]) := by
  have h' : ¬ ∃ m ∈ st.db.messages, m.id = rid := by simpa using h
  have key : ∀ ok, sendMessage st sock receiverId content messageType (some rid) ok =
      sendMessage st sock receiverId content messageType none ok := by
    intro ok
    unfold sendMessage
    cases hu : mapGet st.db.users receiverId with
    | none => rfl
    | some u => simp [h']
  refine ⟨key saveOk, fun u hu hf => ?_⟩
  rw [key true]
  exact (sendMessage_allowed_shape st sock receiverId u content
    messageType hu hf).1

/-- Witness for C10: no message with id 99 exists; the reply reference is
dropped and the message persists with `replyTo = none`. -/
theorem invalid_reply_reference_dropped_witness :
    (stAB.db.messages.any fun m => m.id = 99) = false ∧
    sendMessage stAB sockA "B" "hi" "text" (some 99) true =
      sendMessage stAB sockA "B" "hi" "text" none true ∧
    (sendMessage stAB sockA "B" "hi" "text" (some 99) true).1.db.messages =
      [{ id := 0, sender := "A", receiver := "B", content := "hi",
         messageType := "text", replyTo := none, isRead := false }] := by
  have h := invalid_reply_reference_dropped stAB sockA "B" "hi" "text" 99 true
    (by decide)
  refine ⟨by decide, h.1, ?_⟩
  rw [h.2 { friends := ["A"], blockedUsers := [], status := "online" }
    (by decide) (by decide)]
  decide

end Yapper
